import Mathlib

/-!
Shallow embedding of the OpenMenuOS menu library (src/OpenMenuOS.cpp,
src/OpenMenuOS.h) and proofs about the claims of its specification.

Conventions of the embedding:
* C++ `uint8_t` / `uint16_t` values are `Nat` with explicit `% 256` /
  `% 65536` at the points where the source narrows an `int` expression.
* C++ signed `int` / `int8_t` arithmetic is `Int`; the C `%` operator on
  `int` is truncated division, i.e. `Int.tmod`.
* Fallible operations (out-of-bounds vector access, division by zero)
  return `Option`, `none` marking undefined behaviour of the source.
* The durable key/value store (ESP32 Preferences / EEPROM) is a function
  `Nat → Option Nat` from setting id to the stored integer value.
* Pointers that the source never makes null (the `Setting*` entries of
  `SettingsScreen::settings`, which are always produced by `new`) are
  embedded as plain values, so the source's `s == nullptr` guards are
  vacuously skipped.
-/

set_option maxHeartbeats 1000000

namespace OpenMenuOS

/-- Conversion of an `int` expression to `uint8_t`, as done when the source
assigns an `int` computation to a `uint8_t` field: reduction modulo 256. -/
def toByte (x : Int) : Nat := (x % 256).toNat

/-- Arduino `constrain(amt, low, high)` macro:
`(amt)<(low) ? (low) : ((amt)>(high) ? (high) : (amt))`. -/
def constrain (amt low high : Int) : Int :=
  if amt < low then low else if amt > high then high else amt

/-- The RANGE branch of `SettingsScreen::modify`:
`s->rangeValue = constrain(s->rangeValue + direction, s->range.min, s->range.max);`
with the result narrowed to the `uint8_t` field `rangeValue`. -/
def rangeStep (v : Nat) (direction : Int) (lo hi : Nat) : Nat :=
  toByte (constrain ((v : Int) + direction) (lo : Int) (hi : Int))

/-- The OPTION branch of `SettingsScreen::modify`:
`s->optionIndex = (s->optionIndex + direction + s->optionCount) % s->optionCount;`.
All three operands are promoted to `int`, `%` is C truncated remainder
(`Int.tmod`), and the result is narrowed to the `uint8_t` field
`optionIndex`.  When `optionCount` is zero the source divides by zero
(undefined behaviour), embedded as `none`. -/
def optionStep (idx : Nat) (direction : Int) (cnt : Nat) : Option Nat :=
  if cnt = 0 then none
  else some (toByte (Int.tmod ((idx : Int) + direction + (cnt : Int)) (cnt : Int)))

theorem rangeStep_mem (v : Nat) (d : Int) (lo hi : Nat)
    (h1 : lo ≤ hi) (h2 : hi ≤ 255) :
    lo ≤ rangeStep v d lo hi ∧ rangeStep v d lo hi ≤ hi := by
  unfold rangeStep constrain toByte
  split
  · constructor <;> omega
  · split
    · constructor <;> omega
    · constructor <;> omega

theorem rangeFold_mem_aux (lo hi : Nat) (h1 : lo ≤ hi) (h2 : hi ≤ 255) :
    ∀ (ds : List Int) (v : Nat), lo ≤ v → v ≤ hi →
      lo ≤ ds.foldl (fun x d => rangeStep x d lo hi) v ∧
      ds.foldl (fun x d => rangeStep x d lo hi) v ≤ hi := by
  intro ds
  induction ds with
  | nil => intro v hv1 hv2; exact ⟨hv1, hv2⟩
  | cons d rest ih =>
      intro v _ _
      have h := rangeStep_mem v d lo hi h1 h2
      exact ih (rangeStep v d lo hi) h.1 h.2

theorem optionStep_mem (idx : Nat) (d : Int) (cnt : Nat)
    (hc : 0 < cnt) (hd : 0 ≤ (idx : Int) + d + (cnt : Int)) :
    ∃ j, optionStep idx d cnt = some j ∧ j < cnt := by
  refine ⟨toByte (Int.tmod ((idx : Int) + d + (cnt : Int)) (cnt : Int)), ?_, ?_⟩
  · unfold optionStep
    rw [if_neg (by omega)]
  · rw [Int.tmod_eq_emod hd (by omega)]
    have h1 : 0 ≤ ((idx : Int) + d + (cnt : Int)) % (cnt : Int) :=
      Int.emod_nonneg _ (by omega)
    have h2 : ((idx : Int) + d + (cnt : Int)) % (cnt : Int) < (cnt : Int) :=
      Int.emod_lt_of_pos _ (by omega)
    unfold toByte
    omega

theorem optionStep_plusOne (idx cnt : Nat)
    (h1 : 1 ≤ cnt) (h2 : cnt ≤ 255) (h3 : idx < cnt) :
    optionStep idx 1 cnt = some ((idx + 1) % cnt) := by
  unfold optionStep
  rw [if_neg (by omega)]
  rw [Int.tmod_eq_emod (by omega) (by omega)]
  have hcast : ((idx : Int) + 1 + (cnt : Int)) = ((idx + 1 + cnt : Nat) : Int) := by
    push_cast; ring
  rw [hcast, ← Int.natCast_mod]
  have hm : (idx + 1 + cnt) % cnt = (idx + 1) % cnt := by
    conv_lhs => rw [Nat.add_mod_right]
  rw [hm]
  unfold toByte
  congr 1
  have hlt : (idx + 1) % cnt < cnt := Nat.mod_lt _ (by omega)
  omega

/-- Iterating the OPTION branch of `modify` with direction `+1`, starting from
index `idx`, on a setting with `cnt` options. -/
def optionIterate (cnt idx : Nat) : Nat → Option Nat
  | 0 => some idx
  | n + 1 => (optionIterate cnt idx n).bind (fun i => optionStep i 1 cnt)

theorem optionIterate_eq (cnt idx : Nat)
    (h1 : 1 ≤ cnt) (h2 : cnt ≤ 255) (h3 : idx < cnt) :
    ∀ n, optionIterate cnt idx n = some ((idx + n) % cnt) := by
  intro n
  induction n with
  | zero =>
      unfold optionIterate
      rw [Nat.add_zero, Nat.mod_eq_of_lt h3]
  | succ n ih =>
      unfold optionIterate
      rw [ih, Option.some_bind,
        optionStep_plusOne _ _ h1 h2 (Nat.mod_lt _ (by omega))]
      congr 1
      rw [Nat.mod_add_mod, Nat.add_assoc]

/-- C7: the stored range value after any sequence of RANGE `modify` steps with
any directions, starting from any stored byte, stays inside `[min, max]`. -/
theorem C7_range_clamped (lo hi : Nat) (v : Nat) (ds : List Int)
    (h1 : lo ≤ hi) (h2 : hi ≤ 255) (hne : ds ≠ []) :
    lo ≤ ds.foldl (fun x d => rangeStep x d lo hi) v ∧
    ds.foldl (fun x d => rangeStep x d lo hi) v ≤ hi := by
  match ds, hne with
  | d :: rest, _ =>
      rw [List.foldl_cons]
      have h := rangeStep_mem v d lo hi h1 h2
      exact rangeFold_mem_aux lo hi h1 h2 rest _ h.1 h.2

theorem C7_range_clamped_witness :
    (0 : Nat) ≤ 100 ∧ (100 : Nat) ≤ 255 ∧
      ([(-1 : Int)] ≠ []) ∧
      (0 ≤ [(-1 : Int)].foldl (fun x d => rangeStep x d 0 100) 0 ∧
        [(-1 : Int)].foldl (fun x d => rangeStep x d 0 100) 0 ≤ 100) :=
  ⟨by decide, by decide, by simp,
    C7_range_clamped 0 100 0 [(-1 : Int)] (by decide) (by decide) (by simp)⟩

/-- C8: on an OPTION setting with `cnt ≥ 1` options, iterating the OPTION
branch of `modify` with direction `+1` exactly `cnt` times cycles back to the
starting index, and every intermediate index stays below `cnt`. -/
theorem C8_option_cycles (cnt idx : Nat)
    (h1 : 1 ≤ cnt) (h2 : cnt ≤ 255) (h3 : idx < cnt) :
    optionIterate cnt idx cnt = some idx ∧
    ∀ n, n ≤ cnt → ∃ j, optionIterate cnt idx n = some j ∧ j < cnt := by
  constructor
  · rw [optionIterate_eq cnt idx h1 h2 h3 cnt, Nat.add_mod_right,
      Nat.mod_eq_of_lt h3]
  · intro n _
    exact ⟨(idx + n) % cnt, optionIterate_eq cnt idx h1 h2 h3 n,
      Nat.mod_lt _ (by omega)⟩

theorem C8_option_cycles_witness :
    (1 : Nat) ≤ 3 ∧ (3 : Nat) ≤ 255 ∧ (1 : Nat) < 3 ∧
      (optionIterate 3 1 3 = some 1 ∧
        ∀ n, n ≤ 3 → ∃ j, optionIterate 3 1 n = some j ∧ j < 3) :=
  ⟨by decide, by decide, by decide,
    C8_option_cycles 3 1 (by decide) (by decide) (by decide)⟩

/-- Enumeration `Setting::Type` of the source. -/
inductive SettingType where
  | BOOLEAN
  | RANGE
  | OPTION
  | SUBSCREEN
deriving DecidableEq, Repr

/-- Numeric value of `static_cast<uint8_t>(type)` for the C enum. -/
def SettingType.toNat : SettingType → Nat
  | .BOOLEAN => 0
  | .RANGE => 1
  | .OPTION => 2
  | .SUBSCREEN => 3

/-- Embedding of `Setting::generateId`: a 16-bit hash of the name and type
(`hash = (hash << 5) - hash + *ptr` per character, then
`hash = (hash << 3) - hash + type`, zero mapped to 1), with the id of a
SUBSCREEN setting forced to the sentinel 0. -/
def generateId (name : String) (t : SettingType) : Nat :=
  match t with
  | .SUBSCREEN => 0
  | _ =>
      let h := name.data.foldl (fun h c => (32 * h - h + c.toNat) % 65536) 0
      let h := (8 * h - h + t.toNat) % 65536
      if h = 0 then 1 else h

/-- Embedding of the `Setting` class: the tag, the union of per-type values
(all fields present, the source only reads the one matching `type`), the
RANGE configuration, the OPTION configuration and the SUBSCREEN target.
Screens are opaque handles (`Nat`), a null `Screen*` is `none`. -/
structure Setting where
  name : String
  type : SettingType
  id : Nat
  booleanValue : Bool
  rangeValue : Nat
  rangeMin : Nat
  rangeMax : Nat
  rangeUnit : Option String
  options : List String
  optionCount : Nat
  optionIndex : Nat
  subScreen : Option Nat
deriving DecidableEq, Repr

/-- Result of the constructor `Setting(name, type)`, which stores the name
and type and calls `generateId`; the union and the per-type configuration
start out zeroed here and are filled in by the `add*Setting` helpers. -/
def mkSetting (name : String) (t : SettingType) : Setting :=
  { name := name, type := t, id := generateId name t, booleanValue := false,
    rangeValue := 0, rangeMin := 0, rangeMax := 0, rangeUnit := none,
    options := [], optionCount := 0, optionIndex := 0, subScreen := none }

/-- Durable key/value store (ESP32 Preferences / ESP8266 EEPROM), keyed by
the setting id; `none` means no record for that key. -/
def Store : Type := Nat → Option Nat

/-- Embedding of `SettingsScreen::settingExists`. -/
def settingExists (store : Store) (id : Nat) : Bool := (store id).isSome

/-- Reading a stored record into a `uint8_t` variable
(`getBooleanFromEEPROM` / `getRangeFromEEPROM` / `getOptionIndexFromEEPROM`):
missing keys read as 0, the read integer is narrowed to a byte. -/
def readStoreByte (store : Store) (id : Nat) : Nat :=
  match store id with
  | some v => v % 256
  | none => 0

/-- Writing one key of the store (`preferences.putBool` / `putInt`,
`EEPROM.write`). -/
def putStore (store : Store) (k v : Nat) : Store :=
  fun q => if q = k then some v else store q

/-- The integer persisted for a setting by `SettingsScreen::saveToEEPROM`
(1/0 for BOOLEAN, the raw byte for RANGE and OPTION). -/
def storedValue (s : Setting) : Nat :=
  match s.type with
  | .BOOLEAN => if s.booleanValue then 1 else 0
  | .RANGE => s.rangeValue
  | .OPTION => s.optionIndex
  | .SUBSCREEN => 0

/-- Embedding of `SettingsScreen::saveToEEPROM`: every non-SUBSCREEN setting
among the first `totalSettings` entries is written to the store under its
id. -/
def saveToEEPROM (settings : List Setting) (total : Nat) (store : Store) :
    Store :=
  (settings.take total).foldl
    (fun acc s =>
      if s.type = SettingType.SUBSCREEN then acc
      else putStore acc s.id (storedValue s))
    store

/-- In-memory state of a `SettingsScreen` (the fields the claims touch):
the owned settings vector, `totalSettings` and the selection index
`item_selected_settings`. -/
structure SettingsScreenState where
  settings : List Setting
  totalSettings : Nat
  item_selected_settings : Nat
deriving DecidableEq, Repr

/-- The common tail of the `add*Setting` helpers:
`settings.push_back(s); totalSettings = settings.size();`. -/
def pushSetting (st : SettingsScreenState) (s : Setting) :
    SettingsScreenState :=
  { st with settings := st.settings ++ [s],
            totalSettings := st.settings.length + 1 }

/-- Embedding of `SettingsScreen::addBooleanSetting`.  The duplicate check
matches the source loop (`type == BOOLEAN && strcmp(name) == 0`); on a miss
of the store the default is used and `saveToEEPROM` runs (before the
push_back, as in the source), otherwise the persisted record is loaded
(the source compares the read byte with 1). -/
def addBooleanSetting (st : SettingsScreenState) (store : Store)
    (name : String) (defaultValue : Bool) : SettingsScreenState × Store :=
  if st.settings.any
      (fun s => decide (s.type = SettingType.BOOLEAN ∧ s.name = name)) then
    (st, store)
  else
    let s0 := mkSetting name SettingType.BOOLEAN
    if settingExists store s0.id = false then
      (pushSetting st { s0 with booleanValue := defaultValue },
        saveToEEPROM st.settings st.totalSettings store)
    else
      (pushSetting st
        { s0 with booleanValue := decide (readStoreByte store s0.id = 1) },
        store)

/-- Embedding of `SettingsScreen::addRangeSetting`. -/
def addRangeSetting (st : SettingsScreenState) (store : Store)
    (name : String) (lo hi defaultValue : Nat) (unit : Option String) :
    SettingsScreenState × Store :=
  if st.settings.any
      (fun s => decide (s.type = SettingType.RANGE ∧ s.name = name)) then
    (st, store)
  else
    let s0 := { mkSetting name SettingType.RANGE with
                  rangeMin := lo, rangeMax := hi, rangeUnit := unit }
    if settingExists store s0.id = false then
      (pushSetting st { s0 with rangeValue := defaultValue },
        saveToEEPROM st.settings st.totalSettings store)
    else
      (pushSetting st { s0 with rangeValue := readStoreByte store s0.id },
        store)

/-- Embedding of `SettingsScreen::addOptionSetting`: the options array is
copied (`count` entries), an out-of-range `defaultIndex` is replaced by 0,
and a persisted index `≥ count` is replaced by the (corrected) default. -/
def addOptionSetting (st : SettingsScreenState) (store : Store)
    (name : String) (options : List String) (count defaultIndex : Nat) :
    SettingsScreenState × Store :=
  if st.settings.any
      (fun s => decide (s.type = SettingType.OPTION ∧ s.name = name)) then
    (st, store)
  else
    let s0 := { mkSetting name SettingType.OPTION with
                  options := options.take count, optionCount := count }
    let di := if defaultIndex ≥ count then 0 else defaultIndex
    if settingExists store s0.id = false then
      (pushSetting st { s0 with optionIndex := di },
        saveToEEPROM st.settings st.totalSettings store)
    else
      let v := readStoreByte store s0.id
      (pushSetting st { s0 with optionIndex := if v ≥ count then di else v },
        store)

/-- Embedding of `SettingsScreen::addSubscreenSetting`: note the source has
no duplicate check and no store interaction here; the setting is pushed
unconditionally. -/
def addSubscreenSetting (st : SettingsScreenState) (name : String)
    (targetScreen : Option Nat) : SettingsScreenState :=
  pushSetting st { mkSetting name SettingType.SUBSCREEN with
                     subScreen := targetScreen }

/-- The shared `switch (s->type)` body of both `modify` overloads; `none`
embeds the modulo-by-zero undefined behaviour of the OPTION branch. -/
def applyDelta (s : Setting) (direction : Int) : Option Setting :=
  match s.type with
  | .BOOLEAN => some { s with booleanValue := !s.booleanValue }
  | .RANGE => some { s with
      rangeValue := rangeStep s.rangeValue direction s.rangeMin s.rangeMax }
  | .OPTION =>
      (optionStep s.optionIndex direction s.optionCount).map
        (fun i => { s with optionIndex := i })
  | .SUBSCREEN => some s

/-- Embedding of `SettingsScreen::modify(int8_t direction, int index)`.
The source reads `settings[item_selected_settings]` — the `index` parameter
is unused — then applies the `switch` and calls `saveToEEPROM`; SUBSCREEN
(and, vacuously, null) settings return early without saving.  `none` embeds
an out-of-range vector access or the OPTION modulo-by-zero. -/
def modifyAt (st : SettingsScreenState) (store : Store) (direction : Int)
    (index : Int) : Option (SettingsScreenState × Store) :=
  match st.settings.get? st.item_selected_settings with
  | none => none
  | some s =>
    if s.type = SettingType.SUBSCREEN then some (st, store)
    else
      match applyDelta s direction with
      | none => none
      | some s2 =>
          let st2 := { st with
            settings := st.settings.set st.item_selected_settings s2 }
          some (st2, saveToEEPROM st2.settings st2.totalSettings store)

/-- The search loop of `SettingsScreen::modify(int8_t, const char *name)`:
scan indices `i < totalSettings`, mutate and save at the first name match
(SUBSCREEN matches return without saving), fall through unchanged when no
name matches. -/
def modifyNameFrom (st : SettingsScreenState) (store : Store)
    (direction : Int) (nm : String) (i : Nat) :
    Option (SettingsScreenState × Store) :=
  if i < st.totalSettings then
    match st.settings.get? i with
    | none => none
    | some s =>
      if s.name = nm then
        if s.type = SettingType.SUBSCREEN then some (st, store)
        else
          match applyDelta s direction with
          | none => none
          | some s2 =>
              let st2 := { st with settings := st.settings.set i s2 }
              some (st2, saveToEEPROM st2.settings st2.totalSettings store)
      else modifyNameFrom st store direction nm (i + 1)
  else some (st, store)
termination_by st.totalSettings - i

/-- Embedding of `SettingsScreen::modify(int8_t direction, const char *name)`:
a null name returns immediately, otherwise the search loop runs from 0. -/
def modifyByName (st : SettingsScreenState) (store : Store)
    (direction : Int) (name : Option String) :
    Option (SettingsScreenState × Store) :=
  match name with
  | none => some (st, store)
  | some nm => modifyNameFrom st store direction nm 0

/-- Store with no records (fresh device). -/
def emptyStore : Store := fun _ => none

/-- C9 (counterexample): a `modify` call does not always preserve the
invariant `optionIndex < optionCount`.  On an OPTION setting with 3 options
and current index 0 — which satisfies the invariant — a call with direction
`-5` computes `(0 - 5 + 3) % 3` with C truncated remainder, giving `-2`,
which the `uint8_t` field stores as 254, violating `optionIndex < 3`. -/
theorem C9_counterexample :
    applyDelta
        { mkSetting "Mode" SettingType.OPTION with
            optionCount := 3, optionIndex := 0 } (-5)
      = some { mkSetting "Mode" SettingType.OPTION with
                 optionCount := 3, optionIndex := 254 } ∧
    ¬ (254 < 3) := by
  constructor
  · decide
  · decide

/-- C9 (amended): for an OPTION setting actually created by
`addOptionSetting` with `count ≥ 1` (no duplicate suppresses the call), the
created setting satisfies `optionIndex < optionCount` — both when the
caller's default is out of range and when a persisted record is out of
range — and the invariant is preserved by every `modify` call whose
direction is `+1` or `-1`; with `count = 0` the OPTION branch of `modify`
is a modulo by zero (embedded as `none`). -/
theorem C9_amended_invariant (st : SettingsScreenState) (store : Store)
    (nm : String) (opts : List String) (cnt di : Nat)
    (hcnt : 1 ≤ cnt)
    (hdup : st.settings.any
      (fun s => decide (s.type = SettingType.OPTION ∧ s.name = nm)) = false) :
    (∃ s, (addOptionSetting st store nm opts cnt di).1.settings
        = st.settings ++ [s] ∧ s.optionCount = cnt ∧ s.optionIndex < cnt) ∧
    (∀ idx K d, idx < K → (d = 1 ∨ d = -1) →
      ∃ j, optionStep idx d K = some j ∧ j < K) ∧
    (∀ (idx : Nat) (d : Int), optionStep idx d 0 = none) := by
  refine ⟨?_, ?_, ?_⟩
  · unfold addOptionSetting
    rw [hdup]
    simp only [Bool.false_eq_true, if_false]
    split
    · exact ⟨_, rfl, rfl, by dsimp only; split <;> omega⟩
    · refine ⟨_, rfl, rfl, ?_⟩
      dsimp only
      split
      · split <;> omega
      · omega
  · intro idx K d hik hd
    refine optionStep_mem idx d K (by omega) ?_
    rcases hd with h | h <;> subst h <;> omega
  · intro idx d
    unfold optionStep
    rw [if_pos rfl]

theorem C9_amended_invariant_witness :
    (1 ≤ 2) ∧
    (({ settings := [], totalSettings := 0, item_selected_settings := 0 } :
        SettingsScreenState).settings.any
      (fun s => decide (s.type = SettingType.OPTION ∧ s.name = "Mode"))
        = false) ∧
    ((∃ s, (addOptionSetting
          { settings := [], totalSettings := 0, item_selected_settings := 0 }
          emptyStore "Mode" ["a", "b"] 2 5).1.settings
        = ([] : List Setting) ++ [s] ∧ s.optionCount = 2 ∧
          s.optionIndex < 2) ∧
      (∀ idx K d, idx < K → (d = 1 ∨ d = -1) →
        ∃ j, optionStep idx d K = some j ∧ j < K) ∧
      (∀ (idx : Nat) (d : Int), optionStep idx d 0 = none)) :=
  ⟨by decide, by decide,
    C9_amended_invariant
      { settings := [], totalSettings := 0, item_selected_settings := 0 }
      emptyStore "Mode" ["a", "b"] 2 5 (by decide) (by decide)⟩

/-- Settings screen holding one SUBSCREEN setting named "S", used to refute
the SUBSCREEN part of C4. -/
def subDupState : SettingsScreenState :=
  { settings := [mkSetting "S" SettingType.SUBSCREEN],
    totalSettings := 1, item_selected_settings := 0 }

/-- C4 (counterexample): re-registering a SUBSCREEN setting with the same
name is not a no-op — `addSubscreenSetting` has no duplicate check, so the
settings list grows from 1 to 2 entries and `totalSettings` becomes 2. -/
theorem C4_counterexample :
    (addSubscreenSetting subDupState "S" none).settings.length = 2 ∧
    (addSubscreenSetting subDupState "S" none).totalSettings = 2 := by
  constructor
  · decide
  · decide

/-- C4 (amended): for each of BOOLEAN, RANGE and OPTION separately, a
screen already holding a setting with the same name and that type makes
the re-registration a no-op (state and store unchanged); for SUBSCREEN
there is no duplicate check and the call always appends a new entry. -/
theorem C4_amended_duplicates (st : SettingsScreenState) (store : Store)
    (name : String) (dv : Bool) (lo hi dfl : Nat) (unit : Option String)
    (opts : List String) (cnt di : Nat) (tgt : Option Nat) :
    (st.settings.any
        (fun s => decide (s.type = SettingType.BOOLEAN ∧ s.name = name))
          = true →
      addBooleanSetting st store name dv = (st, store)) ∧
    (st.settings.any
        (fun s => decide (s.type = SettingType.RANGE ∧ s.name = name))
          = true →
      addRangeSetting st store name lo hi dfl unit = (st, store)) ∧
    (st.settings.any
        (fun s => decide (s.type = SettingType.OPTION ∧ s.name = name))
          = true →
      addOptionSetting st store name opts cnt di = (st, store)) ∧
    (addSubscreenSetting st name tgt).settings.length
      = st.settings.length + 1 ∧
    (addSubscreenSetting st name tgt).totalSettings
      = st.settings.length + 1 := by
  refine ⟨?_, ?_, ?_, ?_, ?_⟩
  · intro hb; unfold addBooleanSetting; rw [hb]; simp
  · intro hr; unfold addRangeSetting; rw [hr]; simp
  · intro ho; unfold addOptionSetting; rw [ho]; simp
  · simp [addSubscreenSetting, pushSetting]
  · simp [addSubscreenSetting, pushSetting]

/-- Settings screen holding only a BOOLEAN setting named "A". -/
def boolDupState : SettingsScreenState :=
  { settings := [mkSetting "A" SettingType.BOOLEAN],
    totalSettings := 1, item_selected_settings := 0 }

/-- Settings screen holding only a RANGE setting named "A". -/
def rangeDupState : SettingsScreenState :=
  { settings := [{ mkSetting "A" SettingType.RANGE with rangeMax := 10 }],
    totalSettings := 1, item_selected_settings := 0 }

/-- Settings screen holding only an OPTION setting named "A". -/
def optionDupState : SettingsScreenState :=
  { settings := [{ mkSetting "A" SettingType.OPTION with optionCount := 2 }],
    totalSettings := 1, item_selected_settings := 0 }

theorem C4_amended_duplicates_witness :
    addBooleanSetting boolDupState emptyStore "A" true
      = (boolDupState, emptyStore) ∧
    addRangeSetting rangeDupState emptyStore "A" 0 10 5 none
      = (rangeDupState, emptyStore) ∧
    addOptionSetting optionDupState emptyStore "A" ["x"] 1 0
      = (optionDupState, emptyStore) ∧
    (addSubscreenSetting boolDupState "A" none).settings.length
      = boolDupState.settings.length + 1 ∧
    (addSubscreenSetting boolDupState "A" none).totalSettings
      = boolDupState.settings.length + 1 :=
  ⟨(C4_amended_duplicates boolDupState emptyStore "A" true 0 10 5 none
      ["x"] 1 0 none).1 (by decide),
    (C4_amended_duplicates rangeDupState emptyStore "A" true 0 10 5 none
      ["x"] 1 0 none).2.1 (by decide),
    (C4_amended_duplicates optionDupState emptyStore "A" true 0 10 5 none
      ["x"] 1 0 none).2.2.1 (by decide),
    (C4_amended_duplicates boolDupState emptyStore "A" true 0 10 5 none
      ["x"] 1 0 none).2.2.2.1,
    (C4_amended_duplicates boolDupState emptyStore "A" true 0 10 5 none
      ["x"] 1 0 none).2.2.2.2⟩

/-- Settings screen with a BOOLEAN setting "A" at index 0 (the selected
row) and a RANGE setting "B" (min 0, max 10, value 5) at index 1, used to
exhibit the C1 defect. -/
def C1state : SettingsScreenState :=
  { settings :=
      [{ mkSetting "A" SettingType.BOOLEAN with booleanValue := false },
       { mkSetting "B" SettingType.RANGE with
           rangeMin := 0, rangeMax := 10, rangeValue := 5 }],
    totalSettings := 2, item_selected_settings := 0 }

/-- C1 (code defect, evaluated): `modify(+1, 1)` on `C1state` should, per
the claim, increment the RANGE setting at index 1 from 5 to 6 and leave
index 0 alone.  The source ignores the `index` parameter and mutates
`settings[item_selected_settings]` instead: the BOOLEAN at index 0 is
toggled to `true` and the RANGE at index 1 keeps value 5. -/
theorem C1_modify_ignores_index :
    (modifyAt C1state emptyStore 1 1).map
        (fun p => p.1.settings.map (fun s => (s.booleanValue, s.rangeValue)))
      = some [(true, 0), (false, 5)] := by
  decide

theorem modifyNameFrom_miss (st : SettingsScreenState) (store : Store)
    (d : Int) (nm : String)
    (hlen : st.totalSettings ≤ st.settings.length)
    (hmiss : ∀ s ∈ st.settings, s.name ≠ nm) :
    ∀ k i, st.totalSettings - i = k →
      modifyNameFrom st store d nm i = some (st, store) := by
  intro k
  induction k with
  | zero =>
      intro i hi
      unfold modifyNameFrom
      rw [if_neg (by omega)]
  | succ k ih =>
      intro i hi
      have hlt : i < st.totalSettings := by omega
      have hIdx : i < st.settings.length := by omega
      unfold modifyNameFrom
      rw [if_pos hlt, List.get?_eq_get hIdx]
      have hs : (st.settings.get ⟨i, hIdx⟩).name ≠ nm :=
        hmiss _ (st.settings.get_mem i hIdx)
      dsimp only
      rw [if_neg hs]
      exact ih (i + 1) (by omega)

/-- C10: `modify(direction, name)` with a null name, or with a name
matching no registered setting, leaves the screen state unchanged and
performs no durable-storage write (the returned store is the input
store). -/
theorem C10_modify_missing_name (st : SettingsScreenState) (store : Store)
    (d : Int) (nm : String)
    (hlen : st.totalSettings ≤ st.settings.length)
    (hmiss : ∀ s ∈ st.settings, s.name ≠ nm) :
    modifyByName st store d none = some (st, store) ∧
    modifyByName st store d (some nm) = some (st, store) :=
  ⟨rfl, modifyNameFrom_miss st store d nm hlen hmiss st.totalSettings 0 rfl⟩

/-- Settings screen used to witness C10. -/
def C10state : SettingsScreenState :=
  { settings :=
      [{ mkSetting "X" SettingType.BOOLEAN with booleanValue := true },
       { mkSetting "Y" SettingType.RANGE with rangeMax := 10 }],
    totalSettings := 2, item_selected_settings := 0 }

theorem C10_modify_missing_name_witness :
    C10state.totalSettings ≤ C10state.settings.length ∧
    (∀ s ∈ C10state.settings, s.name ≠ "Z") ∧
    (modifyByName C10state emptyStore 1 none = some (C10state, emptyStore) ∧
      modifyByName C10state emptyStore 1 (some "Z")
        = some (C10state, emptyStore)) :=
  ⟨by decide, by decide,
    C10_modify_missing_name C10state emptyStore 1 "Z" (by decide)
      (by decide)⟩

/-- Embedding of `ScreenManager` (OpenMenuOS.h): screens are opaque
non-null pointers embedded as `Nat` handles, a null `Screen*` is `none`;
`screenHistory` is the `std::vector` used as a stack (push_back at the
end). -/
structure ScreenManager where
  screenHistory : List Nat
  currentScreen : Option Nat
deriving DecidableEq, Repr

/-- Embedding of `ScreenManager::pushScreen`: a null screen is rejected;
the current screen, when non-null, is pushed onto the history; the new
screen becomes current (the `draw()` call has no effect on this state). -/
def pushScreen (m : ScreenManager) (newScreen : Option Nat) : ScreenManager :=
  match newScreen with
  | none => m
  | some s =>
      { screenHistory :=
          match m.currentScreen with
          | none => m.screenHistory
          | some c => m.screenHistory ++ [c],
        currentScreen := some s }

/-- Embedding of `ScreenManager::popScreen`: returns false when history is
empty, otherwise restores the top of the history stack. -/
def popScreen (m : ScreenManager) : ScreenManager × Bool :=
  match m.screenHistory.getLast? with
  | none => (m, false)
  | some c =>
      ({ screenHistory := m.screenHistory.dropLast, currentScreen := some c },
        true)

/-- Embedding of `ScreenManager::canGoBack`:
`return !screenHistory.empty();`. -/
def canGoBack (m : ScreenManager) : Bool := !m.screenHistory.isEmpty

/-- A freshly initialized `ScreenManager` (empty history, null current
screen). -/
def freshScreenManager : ScreenManager :=
  { screenHistory := [], currentScreen := none }

/-- C3 (counterexample): after the very first `pushScreen` on a fresh
manager, `canGoBack()` still returns false — `pushScreen` only records the
previous screen in the history when `currentScreen` was non-null, and on a
fresh manager it is null.  The claim asserts `canGoBack()` is true after
any push, including the first. -/
theorem C3_counterexample :
    canGoBack (pushScreen freshScreenManager (some 1)) = false := by
  decide

/-- C3 (amended): `canGoBack()` is false on a freshly initialized
`ScreenManager`, and after `pushScreen(S)` with non-null `S` it is true
exactly when the manager already displayed a screen before the push (so the
very first push leaves it false, every later push makes it true). -/
theorem C3_amended_canGoBack :
    canGoBack freshScreenManager = false ∧
    ∀ (m : ScreenManager) (s : Nat),
      canGoBack (pushScreen m (some s))
        = (m.currentScreen.isSome || canGoBack m) := by
  refine ⟨by decide, ?_⟩
  intro m s
  cases hc : m.currentScreen with
  | none => simp [pushScreen, canGoBack, hc]
  | some c => simp [pushScreen, canGoBack, hc]

/-- Outcome of one `OpenMenuOS::drawCanvasOnTFT` call in the embedding:
whether the canvas was blitted to the panel (`canvas.pushSprite`), whether
the popup was redrawn (`PopupManager::update`), whether the canvas was
cleared (`canvas.fillSprite(TFT_BLACK)`), and the two retained comparison
buffers after the call. -/
structure DrawOutcome where
  pushed : Bool
  popupUpdated : Bool
  cleared : Bool
  lastFrame : List Nat
  currentFrame : List Nat
deriving DecidableEq, Repr

/-- Embedding of `OpenMenuOS::drawCanvasOnTFT` in the steady state (buffers
allocated).  `canvas` is the sprite frame buffer as a byte list; the diff
is the `memcmp` of the canvas against `lastFrame`; on a detected change the
canvas is copied into `currentFrame` and the two buffers are swapped after
the blit.  The blit happens when the frame changed or a popup is active;
the clear happens exactly when no popup is active. -/
def drawCanvasOnTFT (optimizeDisplayUpdates popupActive : Bool)
    (canvas lastFrame currentFrame : List Nat) : DrawOutcome :=
  if optimizeDisplayUpdates = false then
    { pushed := true, popupUpdated := popupActive, cleared := !popupActive,
      lastFrame := lastFrame, currentFrame := currentFrame }
  else
    let hasChanged := canvas ≠ lastFrame
    let cur := if hasChanged then canvas else currentFrame
    if hasChanged ∨ popupActive = true then
      { pushed := true, popupUpdated := popupActive, cleared := !popupActive,
        lastFrame := cur, currentFrame := lastFrame }
    else
      { pushed := false, popupUpdated := false, cleared := !popupActive,
        lastFrame := lastFrame, currentFrame := cur }

/-- C6 (counterexample): with the optimization on, no popup active and a
canvas bytewise equal to the previous frame, the blit is indeed skipped but
the canvas clear still happens — `fillSprite(TFT_BLACK)` is guarded only by
`!PopupManager::isActive()`, not by the diff result — contradicting the
claim that the clear is skipped too. -/
theorem C6_counterexample :
    (drawCanvasOnTFT true false [1] [1] [0]).pushed = false ∧
    (drawCanvasOnTFT true false [1] [1] [0]).cleared = true := by
  constructor
  · decide
  · decide

/-- C6 (amended): with `optimizeDisplayUpdates` on and no popup active, a
canvas equal to the previous frame skips the blit but the canvas is still
cleared (and the retained previous frame is unchanged); when a popup is
active the popup is redrawn and the blit happens regardless of the diff
result, while the canvas clear is suppressed. -/
theorem C6_amended_draw (canvas lastFrame currentFrame : List Nat) :
    ((drawCanvasOnTFT true false canvas canvas currentFrame).pushed = false ∧
      (drawCanvasOnTFT true false canvas canvas currentFrame).cleared
        = true ∧
      (drawCanvasOnTFT true false canvas canvas currentFrame).lastFrame
        = canvas) ∧
    ((drawCanvasOnTFT true true canvas lastFrame currentFrame).pushed
        = true ∧
      (drawCanvasOnTFT true true canvas lastFrame currentFrame).popupUpdated
        = true ∧
      (drawCanvasOnTFT true true canvas lastFrame currentFrame).cleared
        = false) := by
  constructor
  · refine ⟨?_, ?_, ?_⟩ <;> simp [drawCanvasOnTFT]
  · refine ⟨?_, ?_, ?_⟩ <;> simp [drawCanvasOnTFT]

/-- Enumeration `PopupResult` of the source (NONE / OK / CANCEL). -/
inductive PopupResult where
  | NONE
  | OK
  | CANCEL
deriving DecidableEq, Repr

/-- The fields of `PopupConfig` that drive the popup state machine (message,
title, type and colors only affect drawing). -/
structure PopupConfig where
  showButtons : Bool
  showCancelButton : Bool
  autoClose : Bool
  autoCloseDelay : Nat
deriving DecidableEq, Repr

/-- Default-constructed `PopupConfig`. -/
def defaultPopupConfig : PopupConfig :=
  { showButtons := true, showCancelButton := false, autoClose := false,
    autoCloseDelay := 3000 }

/-- State of the static `PopupManager` plus the function-static locals of
`PopupManager::handleInput` (encoder path): previous SELECT level, the
press-processed latch and the last consumed encoder detent position.
Button levels are `true` when the pin reads `buttonVoltage` (pressed). -/
structure PopupState where
  isVisible : Bool
  currentResult : PopupResult
  showTime : Nat
  config : PopupConfig
  lastButtonTime : Nat
  selectedButton : Int
  prevSelectState : Bool
  selectButtonPressProcessed : Bool
  lastEncoderPosition : Int
deriving DecidableEq, Repr

/-- Initial static state of `PopupManager` (all statics zero-initialized,
`prevSelectState = !buttonVoltage`). -/
def initPopupState : PopupState :=
  { isVisible := false, currentResult := .NONE, showTime := 0,
    config := defaultPopupConfig, lastButtonTime := 0, selectedButton := 0,
    prevSelectState := false, selectButtonPressProcessed := false,
    lastEncoderPosition := 0 }

/-- Embedding of `PopupManager::show`: stores the config, clears the
result, becomes visible, records the show timestamp and resets the button
focus to OK. -/
def popupShow (p : PopupState) (cfg : PopupConfig) (now : Nat) : PopupState :=
  { p with config := cfg, currentResult := .NONE, isVisible := true,
           showTime := now, selectedButton := 0 }

/-- Embedding of `PopupManager::showQuestion`: a default config with the
cancel button enabled. -/
def showQuestion (p : PopupState) (now : Nat) : PopupState :=
  popupShow p { defaultPopupConfig with showCancelButton := true } now

/-- Embedding of `PopupManager::hide`: clears visibility and the pending
result. -/
def popupHide (p : PopupState) : PopupState :=
  { p with isVisible := false, currentResult := .NONE }

/-- Embedding of `PopupManager::isActive`. -/
def popupIsActive (p : PopupState) : Bool := p.isVisible

/-- Inputs sampled during one `PopupManager::handleInput` call in encoder
mode (`useEncoder = true`): the current time, the interrupt flag
`encoderChanged`, the accumulated `encoderPosition`, and the SELECT pin
level (`true` = pressed). -/
structure PopupInput where
  now : Nat
  encoderChanged : Bool
  encoderPosition : Int
  selectPressed : Bool
deriving DecidableEq, Repr

/-- Embedding of `PopupManager::handleInput`, encoder path: early return
when buttons are hidden or within the 200 ms debounce window; otherwise an
encoder detent moves the button focus, then SELECT press/release edges are
tracked, a release with a processed press latches `currentResult` (OK or
CANCEL from the focused button), and a non-NONE result hides the popup —
which also resets `currentResult` to NONE. -/
def popupHandleInput (p : PopupState) (inp : PopupInput) : PopupState :=
  if !p.config.showButtons then p
  else if inp.now - p.lastButtonTime < 200 then p
  else
    let p1 :=
      if inp.encoderChanged && p.config.showCancelButton then
        -- `encoderPosition >> 2` on int: arithmetic shift, floor division by 4
        let newPosition := Int.fdiv inp.encoderPosition 4
        if newPosition != p.lastEncoderPosition then
          { p with
            selectedButton :=
              if newPosition > p.lastEncoderPosition then
                (p.selectedButton + 1) % 2
              else
                (p.selectedButton - 1 + 2) % 2,
            lastEncoderPosition := newPosition,
            lastButtonTime := inp.now }
        else p
      else p
    let p2 :=
      if inp.selectPressed && !p1.selectButtonPressProcessed &&
          !p1.prevSelectState then
        { p1 with selectButtonPressProcessed := true,
                  lastButtonTime := inp.now }
      else p1
    let p3 :=
      if !inp.selectPressed && p2.prevSelectState &&
          p2.selectButtonPressProcessed then
        { p2 with
          currentResult :=
            if p2.config.showCancelButton then
              if p2.selectedButton = 0 then .OK else .CANCEL
            else .OK,
          selectButtonPressProcessed := false }
      else p2
    let p4 :=
      if !inp.selectPressed then
        { p3 with selectButtonPressProcessed := false }
      else p3
    let p5 := { p4 with prevSelectState := inp.selectPressed }
    if p5.currentResult != .NONE then popupHide p5 else p5

/-- Embedding of `PopupManager::update`: NONE while hidden; otherwise run
`handleInput`, auto-close to OK when configured and expired, then draw the
modal and return `currentResult`. -/
def popupUpdate (p : PopupState) (inp : PopupInput) :
    PopupState × PopupResult :=
  if !p.isVisible then (p, .NONE)
  else
    let p1 := popupHandleInput p inp
    if p1.config.autoClose &&
        decide (inp.now - p1.showTime > p1.config.autoCloseDelay) then
      (popupHide p1, .OK)
    else (p1, p1.currentResult)

/-- The popup state after `showQuestion` at time 0 and one encoder detent
at time 300 that moves the focus to the CANCEL button. -/
def C2state1 : PopupState :=
  (popupUpdate (showQuestion initPopupState 0)
    { now := 300, encoderChanged := true, encoderPosition := 4,
      selectPressed := false }).1

/-- The same popup after the SELECT press edge at time 600. -/
def C2state2 : PopupState :=
  (popupUpdate C2state1
    { now := 600, encoderChanged := false, encoderPosition := 4,
      selectPressed := true }).1

/-- C2 (code defect, evaluated): after `showQuestion`, focusing the CANCEL
button and a SELECT press-and-release, the `update()` call that processes
the release returns NONE, not CANCEL: `handleInput` latches
`currentResult = CANCEL` but immediately calls `hide()`, which resets
`currentResult` to NONE before `update()` reads it.  Only
`isActive() = false` survives.  The trace below checks the focus really is
on CANCEL, the popup is active before the release, and the release tick
yields NONE with the popup closed. -/
theorem C2_cancel_press_update_returns_none :
    C2state1.selectedButton = 1 ∧
    popupIsActive C2state2 = true ∧
    (popupUpdate C2state2
        { now := 900, encoderChanged := false, encoderPosition := 4,
          selectPressed := false }).2 = PopupResult.NONE ∧
    popupIsActive
        (popupUpdate C2state2
          { now := 900, encoderChanged := false, encoderPosition := 4,
            selectPressed := false }).1 = false := by
  refine ⟨?_, ?_, ?_, ?_⟩ <;> decide

/-- Function-static state of one button lane of `MenuScreen::handleInput`
(the UP lane shown; DOWN and the SettingsScreen lanes are textually
identical up to the emitted index update): previous sampled level, the
press flags and the two timestamps.  Levels are `true` when the pin reads
`buttonVoltage`. -/
structure BtnState where
  prevPressed : Bool
  isPressing : Bool
  isLongDetected : Bool
  processed : Bool
  pressedTime : Nat
  lastAdjustTime : Nat
deriving DecidableEq, Repr

/-- Zero-initialized statics (`prevUpState = !buttonVoltage`). -/
def initBtnState : BtnState :=
  { prevPressed := false, isPressing := false, isLongDetected := false,
    processed := false, pressedTime := 0, lastAdjustTime := 0 }

/-- One `handleInput` poll of a button lane at time `now` with pin level
`pressed`.  Returns the new state, the number of repeat steps emitted this
tick (the 200 ms block, `LONG_PRESS_TIME_MENU = 500`) and the number of
short-press steps emitted this tick (`SHORT_PRESS_TIME = 300`). -/
def buttonStep (s : BtnState) (pressed : Bool) (now : Nat) :
    BtnState × Nat × Nat :=
  let s1 :=
    if pressed && !s.processed && !s.prevPressed then
      { s with pressedTime := now, isPressing := true,
               isLongDetected := false, processed := true }
    else s
  let s2 :=
    if s1.isPressing && !s1.isLongDetected &&
        decide (now - s1.pressedTime > 500) then
      { s1 with isLongDetected := true }
    else s1
  let r3 :=
    if s2.isPressing && s2.isLongDetected &&
        decide (now - s2.lastAdjustTime ≥ 200) then
      ({ s2 with lastAdjustTime := now }, 1)
    else (s2, 0)
  let r4 :=
    if !pressed && r3.1.prevPressed then
      if decide (now - r3.1.pressedTime < 300) && !r3.1.isLongDetected then
        ({ r3.1 with isPressing := false, processed := false }, 1)
      else ({ r3.1 with isPressing := false, processed := false }, 0)
    else (r3.1, 0)
  ({ r4.1 with prevPressed := pressed }, r3.2, r4.2)

/-- Folding `buttonStep` over a trace of `(level, time)` polls, accumulating
the emitted repeat and short-press step counts. -/
def runStep (acc : BtnState × Nat × Nat) (i : Bool × Nat) :
    BtnState × Nat × Nat :=
  let r := buttonStep acc.1 i.1 i.2
  (r.1, acc.2.1 + r.2.1, acc.2.2 + r.2.2)

def runButton (s : BtnState) (inputs : List (Bool × Nat)) :
    BtnState × Nat × Nat :=
  inputs.foldl runStep (s, 0, 0)

/-- C5 (counterexample): a press at t = 0 released at t = 400 never crosses
the 500 ms long-press threshold, yet emits zero steps — the release only
emits when the hold lasted under `SHORT_PRESS_TIME = 300`, so holds in
[300 ms, 500 ms] are swallowed.  The claim asserts exactly one step
whenever the long-press threshold was never crossed. -/
theorem C5_counterexample :
    (runButton initBtnState [(true, 0), (false, 400)]).2 = (0, 0) ∧
    (runButton initBtnState [(true, 0), (false, 400)]).1.isLongDetected
      = false := by
  constructor
  · decide
  · decide

/-- Mid-hold state of a button lane after a press edge at `t0`, before the
long-press threshold fires. -/
def holdState (t0 : Nat) : BtnState :=
  { prevPressed := true, isPressing := true, isLongDetected := false,
    processed := true, pressedTime := t0, lastAdjustTime := 0 }

theorem buttonStep_press (t0 : Nat) :
    buttonStep initBtnState true t0 = (holdState t0, 0, 0) := by
  simp [buttonStep, initBtnState, holdState]

theorem buttonStep_hold (t0 t : Nat) (h : t - t0 ≤ 500) :
    buttonStep (holdState t0) true t = (holdState t0, 0, 0) := by
  have h1 : ¬ (t - t0 > 500) := by omega
  simp [buttonStep, holdState, h1]

theorem buttonStep_shortRelease (t0 tr : Nat) (h : tr - t0 < 300) :
    buttonStep (holdState t0) false tr =
      ({ prevPressed := false, isPressing := false, isLongDetected := false,
         processed := false, pressedTime := t0, lastAdjustTime := 0 },
        0, 1) := by
  have h1 : ¬ (tr - t0 > 500) := by omega
  simp [buttonStep, holdState, h1, h]

theorem buttonStep_deadRelease (t0 tr : Nat) (h1 : 300 ≤ tr - t0)
    (h2 : tr - t0 ≤ 500) :
    buttonStep (holdState t0) false tr =
      ({ prevPressed := false, isPressing := false, isLongDetected := false,
         processed := false, pressedTime := t0, lastAdjustTime := 0 },
        0, 0) := by
  have h3 : ¬ (tr - t0 > 500) := by omega
  have h4 : ¬ (tr - t0 < 300) := by omega
  simp [buttonStep, holdState, h3, h4]

theorem runButton_holdTrace (t0 : Nat) (held : List Nat)
    (hh : ∀ t ∈ held, t - t0 ≤ 500) (r sh : Nat) :
    (held.map (fun t => (true, t))).foldl runStep (holdState t0, r, sh)
      = (holdState t0, r, sh) := by
  induction held with
  | nil => rfl
  | cons t rest ih =>
      rw [List.map_cons, List.foldl_cons]
      have hstep : runStep (holdState t0, r, sh) (true, t)
          = (holdState t0, r, sh) := by
        simp [runStep, buttonStep_hold t0 t (hh t (by simp))]
      rw [hstep]
      exact ih (fun t ht => hh t (by simp [ht]))

/-- C5 (amended): (1) a press at `t0` released at `tr` with hold shorter
than `SHORT_PRESS_TIME = 300` emits exactly one short-press step and no
repeat step over the whole trace; (2) a press released after a hold in
`[300 ms, LONG_PRESS_TIME_MENU = 500 ms]` emits zero steps over the whole
trace even though the long-press threshold is never crossed (the final
state still has `isLongDetected = false`); (3) while the button is held
past the long-press threshold, a poll emits one repeat step exactly when
200 ms have elapsed since the last emission (so repeats fire once every
200 ms); (4) a release after a detected long press emits zero short-press
steps. -/
theorem C5_amended_button :
    (∀ (t0 tr : Nat) (held : List Nat),
      (∀ t ∈ held, t0 ≤ t ∧ t ≤ tr) → tr - t0 < 300 →
      (runButton initBtnState
          ((true, t0) :: (held.map (fun t => (true, t)) ++ [(false, tr)]))).2
        = (0, 1)) ∧
    (∀ (t0 tr : Nat) (held : List Nat),
      (∀ t ∈ held, t0 ≤ t ∧ t ≤ tr) → 300 ≤ tr - t0 → tr - t0 ≤ 500 →
      (runButton initBtnState
          ((true, t0) :: (held.map (fun t => (true, t)) ++ [(false, tr)]))).2
        = (0, 0) ∧
      (runButton initBtnState
          ((true, t0) ::
            (held.map (fun t => (true, t)) ++ [(false, tr)]))).1.isLongDetected
        = false) ∧
    (∀ (s : BtnState) (now : Nat), s.isPressing = true →
      s.isLongDetected = true → s.processed = true → s.prevPressed = true →
      buttonStep s true now =
        if 200 ≤ now - s.lastAdjustTime then
          ({ s with lastAdjustTime := now }, 1, 0)
        else (s, 0, 0)) ∧
    (∀ (s : BtnState) (now : Nat), s.isLongDetected = true →
      (buttonStep s false now).2.2 = 0) := by
  refine ⟨?_, ?_, ?_, ?_⟩
  · intro t0 tr held hheld hdur
    unfold runButton
    rw [List.foldl_cons]
    have h1 : runStep (initBtnState, 0, 0) (true, t0) = (holdState t0, 0, 0) := by
      simp [runStep, buttonStep_press]
    rw [h1, List.foldl_append]
    have h2 : ∀ t ∈ held, t - t0 ≤ 500 := by
      intro t ht
      have := hheld t ht
      omega
    rw [runButton_holdTrace t0 held h2 0 0, List.foldl_cons]
    have h3 : runStep (holdState t0, 0, 0) (false, tr)
        = ({ prevPressed := false, isPressing := false,
             isLongDetected := false, processed := false,
             pressedTime := t0, lastAdjustTime := 0 }, 0, 1) := by
      simp [runStep, buttonStep_shortRelease t0 tr hdur]
    rw [h3]
    rfl
  · intro t0 tr held hheld hlo hhi
    have hrun : runButton initBtnState
        ((true, t0) :: (held.map (fun t => (true, t)) ++ [(false, tr)]))
        = ({ prevPressed := false, isPressing := false,
             isLongDetected := false, processed := false,
             pressedTime := t0, lastAdjustTime := 0 }, 0, 0) := by
      unfold runButton
      rw [List.foldl_cons]
      have h1 : runStep (initBtnState, 0, 0) (true, t0)
          = (holdState t0, 0, 0) := by
        simp [runStep, buttonStep_press]
      rw [h1, List.foldl_append]
      have h2 : ∀ t ∈ held, t - t0 ≤ 500 := by
        intro t ht
        have := hheld t ht
        omega
      rw [runButton_holdTrace t0 held h2 0 0, List.foldl_cons]
      have h3 : runStep (holdState t0, 0, 0) (false, tr)
          = ({ prevPressed := false, isPressing := false,
               isLongDetected := false, processed := false,
               pressedTime := t0, lastAdjustTime := 0 }, 0, 0) := by
        simp [runStep, buttonStep_deadRelease t0 tr hlo hhi]
      rw [h3]
      rfl
    rw [hrun]
    exact ⟨rfl, rfl⟩
  · intro s now hp hl hproc hprev
    obtain ⟨pv, ip, ild, pr, pt, la⟩ := s
    dsimp at hp hl hproc hprev
    subst hp; subst hl; subst hproc; subst hprev
    by_cases hc : 200 ≤ now - la
    · simp [buttonStep, hc]
    · simp [buttonStep, hc]
  · intro s now hl
    obtain ⟨pv, ip, ild, pr, pt, la⟩ := s
    dsimp at hl
    subst hl
    by_cases hc : ip = true ∧ 200 ≤ now - la
    · rcases pv with _ | _ <;> simp [buttonStep, hc]
    · rcases pv with _ | _ <;> simp [buttonStep, hc]

theorem C5_amended_button_witness :
    (runButton initBtnState [(true, 0), (false, 100)]).2 = (0, 1) ∧
    ((runButton initBtnState [(true, 0), (false, 350)]).2 = (0, 0) ∧
      (runButton initBtnState [(true, 0), (false, 350)]).1.isLongDetected
        = false) :=
  ⟨C5_amended_button.1 0 100 [] (by simp) (by decide),
    C5_amended_button.2.1 0 350 [] (by simp) (by decide) (by decide)⟩

end OpenMenuOS
